import Mathlib

/-
Verification of scripts/collect_repo_metrics.py (repository metrics collector).

The script is embedded shallowly: every external observation (GitHub API
results, file contents, environment variables) is a parameter of the embedded
function, and each Python string primitive used by the script is reproduced
over the character list of the string so that concrete evaluation is possible
in proofs.
-/

namespace RepoMetrics

/-! ### Python string primitives

The script compares and splits strings with Python semantics:
lexicographic comparison by code point, str.startswith, str.split(sep)[0],
and the membership test c in s. -/

/-- Lexicographic comparison of character lists by code point; this is the
semantics of Python string comparison s1 <= s2. -/
def lexLe : List Char → List Char → Bool
  | [], _ => true
  | _ :: _, [] => false
  | a :: as, b :: bs =>
    if a.toNat < b.toNat then true
    else if b.toNat < a.toNat then false
    else lexLe as bs

/-- Python string comparison a <= b. -/
def pyLe (a b : String) : Bool := lexLe a.data b.data

/-- Python s.startswith(p). -/
def pyStartsWith (s p : String) : Bool := p.data.isPrefixOf s.data

/-- Characters of s before the first occurrence of the separator sep;
the whole of s when sep does not occur. -/
def splitHeadAux (sep : List Char) : List Char → List Char
  | [] => []
  | c :: rest => if sep.isPrefixOf (c :: rest) then [] else c :: splitHeadAux sep rest

/-- Python s.split(sep)[0] for a non-empty separator. -/
def pySplitHead (s sep : String) : String := String.mk (splitHeadAux sep.data s.data)

/-- Python membership test c in s for a single character. -/
def pyContainsChar (s : String) (c : Char) : Bool := s.data.contains c

/-! ### Data model

A Repository Metrics Record is built by collect_metrics as a Python dict whose
values are either strings or ints; PyVal captures that dynamic typing for the
fields that hold an int on the success path and an error string otherwise. -/

/-- Dynamically typed dict value of the script: an int or a string. -/
inductive PyVal where
  | int (n : Int)
  | str (s : String)
deriving DecidableEq, Repr, Inhabited

/-- One Repository Metrics Record, mirroring the dict keys built by
collect_metrics: Repository, Owner, Last Commit, Open Issues, Last Release,
Commits (Week), Commits (Month), Contributors, Snyk Scans, RL Scans,
Semgrep Scans. -/
structure MetricsRecord where
  repository : String
  owner : String
  lastCommit : String
  openIssues : PyVal
  lastRelease : String
  commitsWeek : PyVal
  commitsMonth : PyVal
  contributors : PyVal
  snykScans : String
  rlScans : String
  semgrepScans : String
deriving DecidableEq, Repr, Inhabited

/-! ### Commit dates and the counting loop (lines 151-172) -/

/-- Python datetime as used by the counting loop: clock is the naive reading
of the timestamp in seconds (the instant it denotes if read as UTC) and tz is
the UTC offset in seconds, or none for a naive datetime. -/
structure PyDatetime where
  clock : Int
  tz : Option Int
deriving DecidableEq, Repr

/-- Embedding of commit_date.replace(tzinfo=datetime.timezone.utc) applied
when commit_date.tzinfo is None (line 161-162). -/
def PyDatetime.withUtc (d : PyDatetime) : PyDatetime :=
  match d.tz with
  | none => { d with tz := some 0 }
  | some _ => d

/-- Instant denoted by an aware datetime: the clock reading minus the UTC
offset; aware datetimes compare by this instant. -/
def PyDatetime.instant (d : PyDatetime) : Int := d.clock - (d.tz.getD 0)

/-- Result of touching commit.commit.author.date for one commit: the access
can raise (caught at line 170-171 and the commit is skipped) or produce a
datetime. -/
inductive CommitFetch where
  | fail
  | date (d : PyDatetime)
deriving DecidableEq, Repr

/-- Body of the counting loop (lines 155-171) for one commit, acting on the
accumulator (weekly_commits, monthly_commits); thresholds are the instants of
the aware UTC datetimes week_ago and month_ago. -/
def countStep (weekAgo monthAgo : Int) (acc : Nat × Nat) (c : CommitFetch) : Nat × Nat :=
  match c with
  | .fail => acc
  | .date d =>
    let cd := d.withUtc
    if monthAgo ≤ cd.instant then
      if weekAgo ≤ cd.instant then (acc.1 + 1, acc.2 + 1)
      else (acc.1, acc.2 + 1)
    else acc

/-- The whole counting loop over all_commits, starting from
weekly_commits = 0 and monthly_commits = 0 (lines 152-172). -/
def countCommits (weekAgo monthAgo : Int) (commits : List CommitFetch) : Nat × Nat :=
  commits.foldl (countStep weekAgo monthAgo) (0, 0)

/-- Declarative description, following the specification text: a commit is in
the window of a threshold when its date was obtained without an exception and
its author timestamp, read as UTC when naive, is on or after the threshold.
Used only to state the refinement theorem for the counting loop. -/
def commitCounted (threshold : Int) : CommitFetch → Bool
  | .fail => false
  | .date d => decide (threshold ≤ d.withUtc.instant)

/-! ### Security scan configuration (lines 182-211) -/

/-- Parsed scans mapping of security_scans.yaml: each provider key is either
absent or holds a boolean (scans.get(key, False)). -/
structure ScansMap where
  snyk : Option Bool
  rl : Option Bool
  semgrep : Option Bool
deriving DecidableEq, Repr

/-- Parsed top level of security_scans.yaml: the scans key may be absent. -/
structure ScanDoc where
  scans : Option ScansMap
deriving DecidableEq, Repr

/-- Outcome of the scan-configuration step for one repository: err when
get_contents raises (file absent or unreachable), when yaml.safe_load raises,
or when the scans value is not a mapping; ok none when the document parses to
a falsy value; ok (some doc) when it parses to a mapping. -/
inductive ScanFetch where
  | err
  | ok (doc : Option ScanDoc)
deriving DecidableEq, Repr

/-- Embedding of "Enabled" if scans.get(key, False) else "Disabled"
(lines 201-203). -/
def scanFlag (b : Option Bool) : String :=
  if b.getD false then "Enabled" else "Disabled"

/-- The three scan flags (snyk, rl, semgrep) produced by lines 182-211:
defaults stay at "Pending Implementation" unless the document parses to a
mapping with a scans mapping inside. -/
def scanFlags : ScanFetch → String × String × String
  | .err => ("Pending Implementation", "Pending Implementation", "Pending Implementation")
  | .ok none => ("Pending Implementation", "Pending Implementation", "Pending Implementation")
  | .ok (some doc) =>
    match doc.scans with
    | none => ("Pending Implementation", "Pending Implementation", "Pending Implementation")
    | some m => (scanFlag m.snyk, scanFlag m.rl, scanFlag m.semgrep)

/-! ### Per-repository processing (lines 76-244) -/

/-- Observations the script makes of one successfully resolved repository.
headCommit is the formatted date string and author name of the most recent
commit (none when the repository has no commits); releaseDate is the formatted
published_at of the latest release (none when there are no releases);
allCommits is the full commit history fetched at line 140 (none when that
fetch raises, in which case all_commits stays the empty list). -/
structure RepoData where
  ownerLogin : String
  headCommit : Option (String × String)
  openIssuesCount : Int
  releaseDate : Option String
  contributorsCount : Nat
  allCommits : Option (List CommitFetch)
  scanFetch : ScanFetch

/-- Outcome of processing one repository: err when an unguarded step
(org.get_repo, owner access, first commit fetch, issue count, releases,
contributors) raises with the given message, ok otherwise. -/
inductive RepoFetch where
  | err (msg : String)
  | ok (d : RepoData)

/-- Error record appended when processing one repository raises
(lines 232-244). -/
def repoErrorRecord (msg repoName : String) : MetricsRecord :=
  { repository := repoName
    owner := "Error"
    lastCommit := "Error: " ++ msg
    openIssues := PyVal.str "Error"
    lastRelease := "Error"
    commitsWeek := PyVal.int 0
    commitsMonth := PyVal.int 0
    contributors := PyVal.str "Error"
    snykScans := "Pending Implementation"
    rlScans := "Pending Implementation"
    semgrepScans := "Pending Implementation" }

/-- Error record produced for every repository when resolving the
organization raises (lines 59-69). -/
def orgErrorRecord (msg repoName : String) : MetricsRecord :=
  { repository := repoName
    owner := "Error"
    lastCommit := "Org error: " ++ msg
    openIssues := PyVal.str "Error"
    lastRelease := "Error"
    commitsWeek := PyVal.int 0
    commitsMonth := PyVal.int 0
    contributors := PyVal.str "Error"
    snykScans := "Pending Implementation"
    rlScans := "Pending Implementation"
    semgrepScans := "Pending Implementation" }

/-- Record appended on the success path (lines 213-225). -/
def successRecord (weekAgo monthAgo : Int) (repoName : String) (d : RepoData) : MetricsRecord :=
  let lastCommitInfo :=
    match d.headCommit with
    | some p => p.1 ++ " by " ++ p.2
    | none => "No commits"
  let wm := countCommits weekAgo monthAgo (d.allCommits.getD [])
  { repository := repoName
    owner := d.ownerLogin
    lastCommit := lastCommitInfo
    openIssues := PyVal.int d.openIssuesCount
    lastRelease := d.releaseDate.getD "No releases"
    commitsWeek := PyVal.int (wm.1 : Int)
    commitsMonth := PyVal.int (wm.2 : Int)
    contributors := PyVal.int (d.contributorsCount : Int)
    snykScans := (scanFlags d.scanFetch).1
    rlScans := (scanFlags d.scanFetch).2.1
    semgrepScans := (scanFlags d.scanFetch).2.2 }

/-- One iteration of the per-repository loop (lines 76-244). -/
def processRepo (weekAgo monthAgo : Int) (repoName : String) : RepoFetch → MetricsRecord
  | .err msg => repoErrorRecord msg repoName
  | .ok d => successRecord weekAgo monthAgo repoName d

/-- Embedding of collect_metrics (lines 49-246). orgError is some msg when
g.get_organization raises with that message; repoEnv gives the observation of
each repository by name. -/
def collectMetrics (orgError : Option String) (repoEnv : String → RepoFetch)
    (weekAgo monthAgo : Int) (repoNames : List String) : List MetricsRecord :=
  match orgError with
  | some e => repoNames.map (fun repoName => orgErrorRecord e repoName)
  | none => repoNames.map (fun repoName => processRepo weekAgo monthAgo repoName (repoEnv repoName))

/-! ### Report generation (lines 248-314) -/

/-- Python str() of a dict value, as applied to table cells. -/
def pyStr : PyVal → String
  | .int n => toString n
  | .str s => s

/-- Embedding of the normalization loop body (lines 253-257): a value that is
not an int is overwritten with 0. -/
def coerceCommits : PyVal → PyVal
  | .int n => PyVal.int n
  | .str _ => PyVal.int 0

/-- In-place normalization of one record by lines 252-257: only the
Commits (Week) and Commits (Month) fields are touched. -/
def normalizeRecord (m : MetricsRecord) : MetricsRecord :=
  { m with
    commitsWeek := coerceCommits m.commitsWeek
    commitsMonth := coerceCommits m.commitsMonth }

/-- Table row of one record in the fixed header order (lines 259-266). -/
def recordRow (m : MetricsRecord) : List String :=
  [m.repository, m.owner, m.lastCommit, pyStr m.openIssues, m.lastRelease,
   pyStr m.commitsWeek, pyStr m.commitsMonth, pyStr m.contributors,
   m.snykScans, m.rlScans, m.semgrepScans]

/-- Active-repository test of lines 286-288: the Last Commit value is a
string (always true for these records), does not start with "Error", and its
part before " by " compares on or after the week-ago date string. -/
def isActiveRepo (weekAgoStr : String) (m : MetricsRecord) : Bool :=
  !(pyStartsWith m.lastCommit "Error") && pyLe weekAgoStr (pySplitHead m.lastCommit " by ")

/-- The summary count "Repositories with commits in the last week"
(lines 285-289). -/
def activeRepoCount (weekAgoStr : String) (ms : List MetricsRecord) : Nat :=
  ms.countP (fun m => isActiveRepo weekAgoStr m)

/-- Sum of the Commits (Week) values that are ints (lines 292-293). -/
def totalWeeklyCommits (ms : List MetricsRecord) : Int :=
  ms.foldl (fun acc m => match m.commitsWeek with | .int n => acc + n | .str _ => acc) 0

/-- Sum of the Commits (Month) values that are ints (lines 294-295). -/
def totalMonthlyCommits (ms : List MetricsRecord) : Int :=
  ms.foldl (fun acc m => match m.commitsMonth with | .int n => acc + n | .str _ => acc) 0

/-- Count of records whose given scan field equals "Enabled"
(lines 300-302). -/
def enabledCount (field : MetricsRecord → String) (ms : List MetricsRecord) : Nat :=
  ms.countP (fun m => decide (field m = "Enabled"))

/-- Count of records with at least one scan flag still at
"Pending Implementation" (lines 304-306). -/
def pendingScanCount (ms : List MetricsRecord) : Nat :=
  ms.countP (fun m =>
    decide (m.snykScans = "Pending Implementation")
    || decide (m.rlScans = "Pending Implementation")
    || decide (m.semgrepScans = "Pending Implementation"))

/-- Everything generate_report writes after the timestamp line, as one
string: the table (rendered by the external tabulate function tab) and the
summary sections (lines 279-312). The records passed here are the ones
already normalized by lines 252-257. weekAgoStr is the formatted
(now - 7 days) date string of line 285. -/
def reportBody (tab : List (List String) → String) (weekAgoStr : String)
    (ms : List MetricsRecord) : String :=
  tab (ms.map recordRow)
  ++ "\n\n" ++ "## Summary\n\n"
  ++ "Total repositories: " ++ toString ms.length ++ "\n"
  ++ "Repositories with commits in the last week: " ++ toString (activeRepoCount weekAgoStr ms) ++ "\n"
  ++ "Total commits in the last week: " ++ toString (totalWeeklyCommits ms) ++ "\n"
  ++ "Total commits in the last month: " ++ toString (totalMonthlyCommits ms) ++ "\n"
  ++ "\n## Security Scan Status\n\n"
  ++ "Repositories with Snyk enabled: " ++ toString (enabledCount MetricsRecord.snykScans ms) ++ "/" ++ toString ms.length ++ "\n"
  ++ "Repositories with RevealLogic enabled: " ++ toString (enabledCount MetricsRecord.rlScans ms) ++ "/" ++ toString ms.length ++ "\n"
  ++ "Repositories with Semgrep enabled: " ++ toString (enabledCount MetricsRecord.semgrepScans ms) ++ "/" ++ toString ms.length ++ "\n"
  ++ "Repositories pending scan implementation: " ++ toString (pendingScanCount ms) ++ "/" ++ toString ms.length ++ "\n"

/-- Embedding of generate_report (lines 248-314): it first normalizes the
caller-supplied record list in place (returned as the first component, since
the caller keeps the mutated list) and produces the full file content as the
second component. tab stands for the external tabulate function, timestamp
for the formatted now() of line 271, weekAgoStr for the formatted
(now - 7 days) of line 285. -/
def generateReport (tab : List (List String) → String) (timestamp weekAgoStr : String)
    (metrics : List MetricsRecord) : List MetricsRecord × String :=
  let ms := metrics.map normalizeRecord
  (ms,
   "# Repository Metrics Report\n\n"
   ++ "Generated on: " ++ timestamp ++ "\n\n"
   ++ reportBody tab weekAgoStr ms)

/-! ### Organization name resolution (lines 25-47 and 341) -/

/-- Environment observed by get_org_name_from_env: githubRepository is
os.environ.get("GITHUB_REPOSITORY", ""); orgConfigFile is none when opening
config/organization.yaml raises FileNotFoundError and otherwise holds
config.get("organization", ""); githubOrg is none when GITHUB_ORG is unset
and otherwise holds its value. -/
structure OrgEnv where
  githubRepository : String
  orgConfigFile : Option String
  githubOrg : Option String

/-- Embedding of get_org_name_from_env (lines 25-47). -/
def getOrgNameFromEnv (env : OrgEnv) : String :=
  if pyContainsChar env.githubRepository '/' then
    pySplitHead env.githubRepository "/"
  else
    match env.orgConfigFile with
    | some orgName => if orgName ≠ "" then orgName else (env.githubOrg.getD "defaultOrgName")
    | none => env.githubOrg.getD "defaultOrgName"

/-- Embedding of org_name = args.org or get_org_name_from_env() (line 341):
cliOrg is none when the --org flag is absent. -/
def resolveOrgName (cliOrg : Option String) (env : OrgEnv) : String :=
  if cliOrg.getD "" ≠ "" then cliOrg.getD "" else getOrgNameFromEnv env

/-! ### Helper lemmas -/

theorem getD_map_of_lt {α β : Type} (f : α → β) (l : List α) (i : Nat)
    (dA : α) (dB : β) (hi : i < l.length) :
    (l.map f).getD i dB = f (l.getD i dA) := by
  induction l generalizing i with
  | nil => simp at hi
  | cons a as ih =>
    cases i with
    | zero => rfl
    | succ j => simpa using ih j (by simpa using hi)

theorem processRepo_repository (weekAgo monthAgo : Int) (repoName : String)
    (f : RepoFetch) : (processRepo weekAgo monthAgo repoName f).repository = repoName := by
  cases f <;> rfl

/-! ### Claims -/

/-- C1: for every non-empty list of repository names, collect_metrics returns
a list of records of the same length and in the same order as the input, each
record naming the corresponding input repository in its Repository field, on
the success path and under per-repository or organization-level exceptions
alike. -/
theorem collectMetrics_length_order (orgError : Option String)
    (repoEnv : String → RepoFetch) (weekAgo monthAgo : Int)
    (repoNames : List String) (hne : repoNames ≠ []) :
    (collectMetrics orgError repoEnv weekAgo monthAgo repoNames).length = repoNames.length ∧
    ∀ i, i < repoNames.length →
      ((collectMetrics orgError repoEnv weekAgo monthAgo repoNames).getD i default).repository
        = repoNames.getD i "" := by
  cases orgError with
  | none =>
    refine ⟨by simp [collectMetrics], ?_⟩
    intro i hi
    rw [collectMetrics, getD_map_of_lt _ _ i "" default hi]
    exact processRepo_repository _ _ _ _
  | some e =>
    refine ⟨by simp [collectMetrics], ?_⟩
    intro i hi
    rw [collectMetrics, getD_map_of_lt _ _ i "" default hi]
    rfl

/-- Witness for C1 at a concrete input: two repositories, both failing. -/
theorem collectMetrics_length_order_witness :
    (collectMetrics none (fun _ => RepoFetch.err "boom") 0 0 ["alpha", "beta"]).length = 2 ∧
    ((collectMetrics none (fun _ => RepoFetch.err "boom") 0 0 ["alpha", "beta"]).getD 1 default).repository = "beta" := by
  have h := collectMetrics_length_order none (fun _ => RepoFetch.err "boom") 0 0
    ["alpha", "beta"] (by decide)
  exact ⟨h.1, h.2 1 (by decide)⟩

/-- C3 is refuted as stated: after an organization-level failure the
error-bearing fields do not all carry the same failure text; at the concrete
input below the Owner field is the bare sentinel "Error" while Last Commit
carries "Org error: boom". -/
theorem orgError_record_fields_differ :
    ((collectMetrics (some "boom") (fun _ => RepoFetch.err "x") 0 0 ["alpha"]).getD 0 default).owner = "Error" ∧
    ((collectMetrics (some "boom") (fun _ => RepoFetch.err "x") 0 0 ["alpha"]).getD 0 default).lastCommit = "Org error: boom" ∧
    ("Error" : String) ≠ "Org error: boom" :=
  ⟨rfl, rfl, by decide⟩

/-- C3 (amended): if organization resolution fails, collect_metrics returns
one record per input name, independent of every per-repository observation
and of the window thresholds (so no per-repository processing takes place),
in which the Last Commit field carries the organization-level failure text
prefixed "Org error: ", the remaining error-bearing fields carry the bare
sentinel "Error", both commit counters equal their error sentinel 0, and the
three scan flags are "Pending Implementation". -/
theorem collectMetrics_orgError_records (e : String) (env env' : String → RepoFetch)
    (wk mo wk' mo' : Int) (names : List String) :
    collectMetrics (some e) env wk mo names = collectMetrics (some e) env' wk' mo' names ∧
    (collectMetrics (some e) env wk mo names).length = names.length ∧
    ∀ r ∈ collectMetrics (some e) env wk mo names,
      r.owner = "Error" ∧ r.lastCommit = "Org error: " ++ e ∧
      r.openIssues = PyVal.str "Error" ∧ r.lastRelease = "Error" ∧
      r.commitsWeek = PyVal.int 0 ∧ r.commitsMonth = PyVal.int 0 ∧
      r.contributors = PyVal.str "Error" ∧ r.snykScans = "Pending Implementation" ∧
      r.rlScans = "Pending Implementation" ∧ r.semgrepScans = "Pending Implementation" := by
  refine ⟨rfl, by simp [collectMetrics], ?_⟩
  intro r hr
  simp only [collectMetrics, List.mem_map] at hr
  obtain ⟨n, _, rfl⟩ := hr
  exact ⟨rfl, rfl, rfl, rfl, rfl, rfl, rfl, rfl, rfl, rfl⟩

/-- Witness for the amended C3 at a concrete input. -/
theorem collectMetrics_orgError_records_witness :
    (orgErrorRecord "boom" "r1").owner = "Error" ∧
    (orgErrorRecord "boom" "r1").lastCommit = "Org error: boom" := by
  have h := (collectMetrics_orgError_records "boom" (fun _ => RepoFetch.err "a")
    (fun _ => RepoFetch.err "b") 0 0 1 1 ["r1"]).2.2 (orgErrorRecord "boom" "r1")
    (by decide)
  exact ⟨h.1, h.2.1⟩

/-- Invariant of the counting loop: starting from an accumulator, the fold
adds the number of commits in the month window to the monthly component and
the number of commits in both windows to the weekly component. -/
theorem foldl_countStep (weekAgo monthAgo : Int) (cs : List CommitFetch) (acc : Nat × Nat) :
    cs.foldl (countStep weekAgo monthAgo) acc
      = (acc.1 + cs.countP (fun c => commitCounted monthAgo c && commitCounted weekAgo c),
         acc.2 + cs.countP (fun c => commitCounted monthAgo c)) := by
  induction cs generalizing acc with
  | nil => simp
  | cons c rest ih =>
    rw [List.foldl_cons, ih]
    cases c with
    | fail => simp [countStep, commitCounted, List.countP_cons]
    | date d =>
      simp only [countStep]
      by_cases hm : monthAgo ≤ d.withUtc.instant
      · by_cases hw : weekAgo ≤ d.withUtc.instant
        · simp [List.countP_cons, commitCounted, hm, hw, Prod.ext_iff] <;> omega
        · simp [List.countP_cons, commitCounted, hm, hw, Prod.ext_iff] <;> omega
      · simp [List.countP_cons, commitCounted, hm, Prod.ext_iff] <;> omega

/-- Characterization of countCommits by declarative counts. -/
theorem countCommits_eq (weekAgo monthAgo : Int) (cs : List CommitFetch) :
    countCommits weekAgo monthAgo cs
      = (cs.countP (fun c => commitCounted monthAgo c && commitCounted weekAgo c),
         cs.countP (fun c => commitCounted monthAgo c)) := by
  simpa [countCommits] using foldl_countStep weekAgo monthAgo cs (0, 0)

/-- Weekly tally never exceeds the monthly tally. -/
theorem countCommits_fst_le_snd (weekAgo monthAgo : Int) (cs : List CommitFetch) :
    (countCommits weekAgo monthAgo cs).1 ≤ (countCommits weekAgo monthAgo cs).2 := by
  rw [countCommits_eq]
  exact List.countP_mono_left (fun c _ h => (Bool.and_eq_true_iff.mp h).1)

/-- C5: the weekly and monthly tallies equal the number of commits of the
full history whose author timestamp, read as UTC when naive, lies inclusively
on or after the week and month thresholds respectively (the weekly test being
nested inside the monthly one); a commit whose date processing raises is
skipped without affecting the other commits; naive timestamps are compared as
UTC instants and aware timestamps by clock minus offset. -/
theorem countCommits_spec (weekAgo monthAgo : Int) (cs : List CommitFetch) :
    countCommits weekAgo monthAgo cs
      = (cs.countP (fun c => commitCounted monthAgo c && commitCounted weekAgo c),
         cs.countP (fun c => commitCounted monthAgo c)) ∧
    (∀ cs1 cs2 : List CommitFetch,
      countCommits weekAgo monthAgo (cs1 ++ CommitFetch.fail :: cs2)
        = countCommits weekAgo monthAgo (cs1 ++ cs2)) ∧
    (∀ t : Int, commitCounted monthAgo (CommitFetch.date ⟨t, none⟩) = decide (monthAgo ≤ t)) ∧
    (∀ t off : Int,
      commitCounted monthAgo (CommitFetch.date ⟨t, some off⟩) = decide (monthAgo ≤ t - off)) := by
  refine ⟨countCommits_eq weekAgo monthAgo cs, ?_, ?_, ?_⟩
  · intro cs1 cs2
    rw [countCommits_eq, countCommits_eq]
    simp [List.countP_append, List.countP_cons, commitCounted]
  · intro t
    simp [commitCounted, PyDatetime.withUtc, PyDatetime.instant]
  · intro t off
    simp [commitCounted, PyDatetime.withUtc, PyDatetime.instant]

/-- C4: in every record produced by collect_metrics the Commits (Week) value
is at most the Commits (Month) value; the weekly increment happens only when
the monthly threshold already passed, and both error paths set both to 0. -/
theorem commitsWeek_le_commitsMonth (orgError : Option String)
    (repoEnv : String → RepoFetch) (weekAgo monthAgo : Int) (names : List String)
    (r : MetricsRecord) (hr : r ∈ collectMetrics orgError repoEnv weekAgo monthAgo names)
    (w m : Int) (hw : r.commitsWeek = PyVal.int w) (hm : r.commitsMonth = PyVal.int m) :
    w ≤ m := by
  cases orgError with
  | some e =>
    simp only [collectMetrics, List.mem_map] at hr
    obtain ⟨n, _, rfl⟩ := hr
    simp only [orgErrorRecord, PyVal.int.injEq] at hw hm
    omega
  | none =>
    simp only [collectMetrics, List.mem_map] at hr
    obtain ⟨n, _, rfl⟩ := hr
    cases hf : repoEnv n with
    | err msg =>
      rw [hf] at hw hm
      simp only [processRepo, repoErrorRecord, PyVal.int.injEq] at hw hm
      omega
    | ok d =>
      rw [hf] at hw hm
      simp only [processRepo, successRecord, PyVal.int.injEq] at hw hm
      have hle := countCommits_fst_le_snd weekAgo monthAgo (d.allCommits.getD [])
      omega

/-- Sample per-repository observation used by witnesses: three commits, one
inside both windows, one inside only the month window, one whose date access
raises. -/
def sampleRepoData : RepoData :=
  { ownerLogin := "octo"
    headCommit := some ("2026-10-10 12:00:00", "bob")
    openIssuesCount := 2
    releaseDate := none
    contributorsCount := 3
    allCommits := some [CommitFetch.date ⟨100, none⟩, CommitFetch.date ⟨5, some 0⟩, CommitFetch.fail]
    scanFetch := ScanFetch.err }

/-- Witness for C4 at a concrete input: the sample repository yields weekly
count 1 and monthly count 2. -/
theorem commitsWeek_le_commitsMonth_witness : (1 : Int) ≤ 2 :=
  commitsWeek_le_commitsMonth none (fun _ => RepoFetch.ok sampleRepoData) 10 1 ["alpha"]
    (successRecord 10 1 "alpha" sampleRepoData) (by decide) 1 2 (by decide) (by decide)

/-- C6: when the scan-configuration step fails (document absent, unreadable,
or failing to parse), the three scan flags of the record stay at
"Pending Implementation", the failure never escapes the step (the record is
still produced by the total embedding), and every other field of the record
is the same as it would be under any other scan-configuration outcome. -/
theorem scanConfig_failure_defaults (weekAgo monthAgo : Int) (repoName : String)
    (d : RepoData) (h : d.scanFetch = ScanFetch.err) :
    (processRepo weekAgo monthAgo repoName (RepoFetch.ok d)).snykScans = "Pending Implementation" ∧
    (processRepo weekAgo monthAgo repoName (RepoFetch.ok d)).rlScans = "Pending Implementation" ∧
    (processRepo weekAgo monthAgo repoName (RepoFetch.ok d)).semgrepScans = "Pending Implementation" ∧
    ∀ sf : ScanFetch,
      (processRepo weekAgo monthAgo repoName (RepoFetch.ok d)).repository
        = (processRepo weekAgo monthAgo repoName (RepoFetch.ok { d with scanFetch := sf })).repository ∧
      (processRepo weekAgo monthAgo repoName (RepoFetch.ok d)).owner
        = (processRepo weekAgo monthAgo repoName (RepoFetch.ok { d with scanFetch := sf })).owner ∧
      (processRepo weekAgo monthAgo repoName (RepoFetch.ok d)).lastCommit
        = (processRepo weekAgo monthAgo repoName (RepoFetch.ok { d with scanFetch := sf })).lastCommit ∧
      (processRepo weekAgo monthAgo repoName (RepoFetch.ok d)).openIssues
        = (processRepo weekAgo monthAgo repoName (RepoFetch.ok { d with scanFetch := sf })).openIssues ∧
      (processRepo weekAgo monthAgo repoName (RepoFetch.ok d)).lastRelease
        = (processRepo weekAgo monthAgo repoName (RepoFetch.ok { d with scanFetch := sf })).lastRelease ∧
      (processRepo weekAgo monthAgo repoName (RepoFetch.ok d)).commitsWeek
        = (processRepo weekAgo monthAgo repoName (RepoFetch.ok { d with scanFetch := sf })).commitsWeek ∧
      (processRepo weekAgo monthAgo repoName (RepoFetch.ok d)).commitsMonth
        = (processRepo weekAgo monthAgo repoName (RepoFetch.ok { d with scanFetch := sf })).commitsMonth ∧
      (processRepo weekAgo monthAgo repoName (RepoFetch.ok d)).contributors
        = (processRepo weekAgo monthAgo repoName (RepoFetch.ok { d with scanFetch := sf })).contributors := by
  refine ⟨?_, ?_, ?_, fun sf => ⟨rfl, rfl, rfl, rfl, rfl, rfl, rfl, rfl⟩⟩ <;>
    simp [processRepo, successRecord, h, scanFlags]

/-- Witness for C6 at a concrete input. -/
theorem scanConfig_failure_defaults_witness :
    (processRepo 10 1 "alpha" (RepoFetch.ok sampleRepoData)).snykScans = "Pending Implementation" :=
  (scanConfig_failure_defaults 10 1 "alpha" sampleRepoData rfl).1

/-- Concrete scans mapping used by the C10 witness: snyk absent, rl enabled,
semgrep disabled. -/
def parsedScanMap : ScansMap := { snyk := none, rl := some true, semgrep := some false }

/-- Sample observation whose scan-configuration document parses to a scans
mapping. -/
def parsedScanData : RepoData :=
  { sampleRepoData with scanFetch := ScanFetch.ok (some { scans := some parsedScanMap }) }

/-- C10: when the scan-configuration document exists, parses, and contains a
scans mapping, every provider flag of the record is either "Enabled" or
"Disabled", and a provider key missing from the mapping yields "Disabled",
not the "Pending Implementation" default. -/
theorem scanFlags_enabled_or_disabled (weekAgo monthAgo : Int) (repoName : String)
    (d : RepoData) (m : ScansMap)
    (h : d.scanFetch = ScanFetch.ok (some { scans := some m })) :
    ((processRepo weekAgo monthAgo repoName (RepoFetch.ok d)).snykScans = "Enabled" ∨
      (processRepo weekAgo monthAgo repoName (RepoFetch.ok d)).snykScans = "Disabled") ∧
    ((processRepo weekAgo monthAgo repoName (RepoFetch.ok d)).rlScans = "Enabled" ∨
      (processRepo weekAgo monthAgo repoName (RepoFetch.ok d)).rlScans = "Disabled") ∧
    ((processRepo weekAgo monthAgo repoName (RepoFetch.ok d)).semgrepScans = "Enabled" ∨
      (processRepo weekAgo monthAgo repoName (RepoFetch.ok d)).semgrepScans = "Disabled") ∧
    (m.snyk = none → (processRepo weekAgo monthAgo repoName (RepoFetch.ok d)).snykScans = "Disabled") ∧
    (m.rl = none → (processRepo weekAgo monthAgo repoName (RepoFetch.ok d)).rlScans = "Disabled") ∧
    (m.semgrep = none → (processRepo weekAgo monthAgo repoName (RepoFetch.ok d)).semgrepScans = "Disabled") := by
  have hs : (processRepo weekAgo monthAgo repoName (RepoFetch.ok d)).snykScans = scanFlag m.snyk := by
    simp [processRepo, successRecord, h, scanFlags]
  have hr : (processRepo weekAgo monthAgo repoName (RepoFetch.ok d)).rlScans = scanFlag m.rl := by
    simp [processRepo, successRecord, h, scanFlags]
  have hg : (processRepo weekAgo monthAgo repoName (RepoFetch.ok d)).semgrepScans = scanFlag m.semgrep := by
    simp [processRepo, successRecord, h, scanFlags]
  refine ⟨?_, ?_, ?_, ?_, ?_, ?_⟩
  · rw [hs]; unfold scanFlag; split
    · exact Or.inl rfl
    · exact Or.inr rfl
  · rw [hr]; unfold scanFlag; split
    · exact Or.inl rfl
    · exact Or.inr rfl
  · rw [hg]; unfold scanFlag; split
    · exact Or.inl rfl
    · exact Or.inr rfl
  · intro hn; rw [hs, hn]; rfl
  · intro hn; rw [hr, hn]; rfl
  · intro hn; rw [hg, hn]; rfl

/-- Witness for C10 at a concrete input: the snyk key is absent from the
mapping and the flag comes out "Disabled". -/
theorem scanFlags_enabled_or_disabled_witness :
    (processRepo 10 1 "alpha" (RepoFetch.ok parsedScanData)).snykScans = "Disabled" :=
  (scanFlags_enabled_or_disabled 10 1 "alpha" parsedScanData parsedScanMap rfl).2.2.2.1 rfl

/-- Observation of a repository with an empty commit history. -/
def noCommitsRepoData : RepoData :=
  { ownerLogin := "octo"
    headCommit := none
    openIssuesCount := 0
    releaseDate := none
    contributorsCount := 0
    allCommits := some []
    scanFetch := ScanFetch.err }

/-- C2: evaluation of the summary counter at the failing input. The claim
(and the specification) say that no record carrying an error sentinel,
organization-level ones included, and no "No commits" record is counted
among "Repositories with commits in the last week"; the filter of lines
286-288 only excludes strings starting with "Error", and the strings
"No commits" and "Org error: ..." compare lexically above every date string,
so both records below are counted and the counter comes out 2, not 0. -/
theorem activeRepoCount_counts_sentinels :
    activeRepoCount "2026-10-05"
      [successRecord 10 1 "alpha" noCommitsRepoData, orgErrorRecord "rate limit" "beta"] = 2 := by
  decide

/-- Coercion of lines 254-257 is idempotent. -/
theorem coerceCommits_idem (v : PyVal) : coerceCommits (coerceCommits v) = coerceCommits v := by
  cases v <;> rfl

/-- Normalization of one record is idempotent. -/
theorem normalizeRecord_idem (m : MetricsRecord) :
    normalizeRecord (normalizeRecord m) = normalizeRecord m := by
  simp [normalizeRecord, coerceCommits_idem]

/-- C7: running generate_report twice on the identical record set (the second
run seeing the list as left mutated by the first run) with the same injected
generation timestamp produces byte-identical output, table and summary
included: the rendered content is a deterministic function of the record list
alone. -/
theorem generateReport_idempotent (tab : List (List String) → String)
    (timestamp weekAgoStr : String) (metrics : List MetricsRecord) :
    (generateReport tab timestamp weekAgoStr ((generateReport tab timestamp weekAgoStr metrics).1)).1
      = (generateReport tab timestamp weekAgoStr metrics).1 ∧
    (generateReport tab timestamp weekAgoStr ((generateReport tab timestamp weekAgoStr metrics).1)).2
      = (generateReport tab timestamp weekAgoStr metrics).2 := by
  have hmap : (metrics.map normalizeRecord).map normalizeRecord = metrics.map normalizeRecord := by
    induction metrics with
    | nil => rfl
    | cons a l ih => simp only [List.map_cons, normalizeRecord_idem, List.map_cons] at ih ⊢; rw [ih]
  constructor
  · exact hmap
  · simp only [generateReport]
    rw [hmap]

/-- Record with a non-integer Commits (Week) value, as a caller other than
collect_metrics could supply. -/
def badRecord : MetricsRecord :=
  { repository := "r"
    owner := "o"
    lastCommit := "No commits"
    openIssues := PyVal.str "Error"
    lastRelease := "Error"
    commitsWeek := PyVal.str "Error"
    commitsMonth := PyVal.int 5
    contributors := PyVal.int 0
    snykScans := "Pending Implementation"
    rlScans := "Pending Implementation"
    semgrepScans := "Pending Implementation" }

/-- C9: generate_report hands the caller back its record list where, at every
index, the record equals the input record except that the Commits (Week) and
Commits (Month) fields pass through the coercion of lines 253-257, which
keeps integer values and overwrites non-integer values with 0; every other
field is unchanged. -/
theorem generateReport_normalizes_commits (tab : List (List String) → String)
    (timestamp weekAgoStr : String) (ms : List MetricsRecord) (i : Nat)
    (hi : i < ms.length) :
    (generateReport tab timestamp weekAgoStr ms).1.length = ms.length ∧
    (generateReport tab timestamp weekAgoStr ms).1.getD i default
      = { ms.getD i default with
          commitsWeek := coerceCommits ((ms.getD i default).commitsWeek),
          commitsMonth := coerceCommits ((ms.getD i default).commitsMonth) } ∧
    (∀ n : Int, coerceCommits (PyVal.int n) = PyVal.int n) ∧
    (∀ s : String, coerceCommits (PyVal.str s) = PyVal.int 0) := by
  refine ⟨by simp [generateReport], ?_, fun n => rfl, fun s => rfl⟩
  show (ms.map normalizeRecord).getD i default = _
  rw [getD_map_of_lt normalizeRecord ms i default default hi]
  rfl

/-- Witness for C9 at a concrete input: one record whose Commits (Week) holds
the string "Error". -/
theorem generateReport_normalizes_commits_witness :
    (generateReport (fun _ => "") "t" "2026-10-05" [badRecord]).1.length = 1 ∧
    coerceCommits (PyVal.str "Error") = PyVal.int 0 := by
  have h := generateReport_normalizes_commits (fun _ => "") "t" "2026-10-05" [badRecord] 0 (by decide)
  exact ⟨h.1, h.2.2.2 "Error"⟩

/-- C8 is refuted as stated: with no --org flag, GITHUB_REPOSITORY set to
"/repo" (so its owner segment is empty), the configuration file supplying
"myorg" and GITHUB_ORG unset, resolution returns the empty owner segment of
the GITHUB_REPOSITORY step instead of the first non-empty candidate. -/
theorem resolveOrgName_empty_owner_segment :
    resolveOrgName none
      { githubRepository := "/repo", orgConfigFile := some "myorg", githubOrg := none } = "" ∧
    ("" : String) ≠ "myorg" ∧ ("" : String) ≠ "defaultOrgName" := by
  refine ⟨by decide, by decide, by decide⟩

/-- C8 (amended): the organization name is resolved in this order: the
command-line flag when non-empty; otherwise, when GITHUB_REPOSITORY contains
a slash, the segment of it before the first slash, returned even when that
segment is empty; otherwise the organization value of the configuration file
when the file exists and the value is non-empty; otherwise the GITHUB_ORG
variable whenever it is set, even to the empty string; otherwise the
hardcoded default "defaultOrgName". -/
theorem resolveOrgName_order (flag : Option String) (env : OrgEnv) :
    (flag.getD "" ≠ "" → resolveOrgName flag env = flag.getD "") ∧
    (flag.getD "" = "" → pyContainsChar env.githubRepository '/' = true →
      resolveOrgName flag env = pySplitHead env.githubRepository "/") ∧
    (flag.getD "" = "" → pyContainsChar env.githubRepository '/' = false →
      ∀ cfg : String, env.orgConfigFile = some cfg → cfg ≠ "" →
        resolveOrgName flag env = cfg) ∧
    (flag.getD "" = "" → pyContainsChar env.githubRepository '/' = false →
      (env.orgConfigFile = none ∨ env.orgConfigFile = some "") →
      ∀ s : String, env.githubOrg = some s → resolveOrgName flag env = s) ∧
    (flag.getD "" = "" → pyContainsChar env.githubRepository '/' = false →
      (env.orgConfigFile = none ∨ env.orgConfigFile = some "") →
      env.githubOrg = none → resolveOrgName flag env = "defaultOrgName") := by
  refine ⟨?_, ?_, ?_, ?_, ?_⟩
  · intro h
    simp [resolveOrgName, h]
  · intro h1 h2
    simp [resolveOrgName, getOrgNameFromEnv, h1, h2]
  · intro h1 h2 cfg hc hne
    simp [resolveOrgName, getOrgNameFromEnv, h1, h2, hc, hne]
  · intro h1 h2 hcfg s hso
    rcases hcfg with hc | hc <;>
      simp [resolveOrgName, getOrgNameFromEnv, h1, h2, hc, hso]
  · intro h1 h2 hcfg ho
    rcases hcfg with hc | hc <;>
      simp [resolveOrgName, getOrgNameFromEnv, h1, h2, hc, ho]

/-- Witness for the amended C8 at a concrete input: a non-empty flag wins. -/
theorem resolveOrgName_order_witness :
    resolveOrgName (some "cli")
      { githubRepository := "acme/repo", orgConfigFile := none, githubOrg := none } = "cli" :=
  (resolveOrgName_order (some "cli")
    { githubRepository := "acme/repo", orgConfigFile := none, githubOrg := none }).1 (by decide)

end RepoMetrics
